import Mathlib

/-!
Verification of the Solana block-aggregator ingestion pipeline.

Shallow embedding of the repository's core:
* `src/types.rs` — `TransferInfo`, `ParsedInstruction`, `TransactionDetails`, `EpochInfo`;
* `src/aggregator/processor.rs` — `get_transaction_signature`, `parse_transaction`, `parse_block`;
* `src/aggregator/mod.rs` — `get_block_with_retry`, `aggregate_blocks`;
* `src/db/mod.rs` — `insert_or_update_transaction`, `insert_or_update_account`.

External collaborators (the RPC client, the SQLite engine, serde serialization,
clock sleeps) are modelled as oracles/parameters; machine integers (`u64`, `i64`,
`u8`) are modelled as `Nat`/`Int`, with an explicit `% 2 ^ 64` where `u64`
arithmetic can overflow (the retry loop's `wait_time *= 2`); the remaining
modelled arithmetic either cannot overflow (`attempts` is bounded by the `u8`
budget) or is covered by a claim's explicit no-overflow precondition (the
epoch-window sums and differences).
-/

namespace SolanaAggregator

/-! ## Data model (src/types.rs and the `solana_transaction_status` shapes the code matches on) -/

/-- `types.rs::TransferInfo`: `{source, destination, lamports}` (lamports is `u64`). -/
structure TransferInfo where
  source : String
  destination : String
  lamports : Nat
deriving DecidableEq, Repr

/-- `types.rs::ParsedInstruction`: serde target of the recognized instruction's
`parsed` JSON payload — `{info : TransferInfo, type : String}`. -/
structure ParsedInstruction where
  info : TransferInfo
  instruction_type : String
deriving DecidableEq, Repr

/-- `types.rs::TransactionDetails`: the normalized transfer record produced by
`parse_transaction` (`amount` is `u64`, `timestamp` is `Option<i64>`). -/
structure TransactionDetails where
  sender : String
  receiver : String
  amount : Nat
  timestamp : Option Int
deriving DecidableEq, Repr

/-- `types.rs::EpochInfo` (all fields `u64`). -/
structure EpochInfo where
  absolute_slot : Nat
  slot_index : Nat
  slots_in_epoch : Nat
deriving DecidableEq, Repr

/-- The payload of `solana_transaction_status`'s `UiParsedInstruction::Parsed`.
Its `parsed` field is a raw JSON value in the source; the code only ever runs
`serde_json::from_value::<ParsedInstruction>` on it, so the value is modelled by
the outcome of that deserialization: `some p` for a value deserializing to `p`,
`none` for a value on which deserialization fails (malformed transfer payload). -/
structure SolanaParsedInstruction where
  program_id : String
  parsed : Option ParsedInstruction
deriving DecidableEq, Repr

/-- `UiParsedInstruction`: `Parsed` carries the fully parsed instruction;
`partiallyDecoded` stands for `UiParsedInstruction::PartiallyDecoded`, which the
code does not match (its handling is commented out), so it falls through. -/
inductive UiParsedInstruction where
  | parsed (p : SolanaParsedInstruction)
  | partiallyDecoded
deriving DecidableEq, Repr

/-- `UiInstruction`: `Parsed` carries a `UiParsedInstruction`; `compiled` stands
for `UiInstruction::Compiled`, which the code does not match, so it falls through. -/
inductive UiInstruction where
  | parsed (pi : UiParsedInstruction)
  | compiled
deriving DecidableEq, Repr

/-- The part of `UiParsedMessage` the code reads: its instruction list. -/
structure UiParsedMessage where
  instructions : List UiInstruction
deriving DecidableEq, Repr

/-- `UiMessage`: `parsed` is `UiMessage::Parsed`; `raw` stands for
`UiMessage::Raw`, the non-parsed message form. -/
inductive UiMessage where
  | parsed (m : UiParsedMessage)
  | raw
deriving DecidableEq, Repr

/-- The part of `UiTransaction` the code reads: signatures and message. -/
structure UiTransaction where
  signatures : List String
  message : UiMessage
deriving DecidableEq, Repr

/-- `EncodedTransaction`: `json` is `EncodedTransaction::Json`; `other` stands
for every non-JSON encoding (`LegacyBinary`, `Binary`, `Accounts`), which the
code treats uniformly via its catch-all `_` arm. -/
inductive EncodedTransaction where
  | json (tx : UiTransaction)
  | other
deriving DecidableEq, Repr

/-- `EncodedTransactionWithStatusMeta`: the code reads only its `transaction`
field; the status meta is never inspected and is omitted. -/
structure TransactionWithMeta where
  transaction : EncodedTransaction
deriving DecidableEq, Repr

/-- The part of `UiConfirmedBlock` the code reads: `block_time : Option<i64>`
and the optional transaction list. -/
structure UiConfirmedBlock where
  block_time : Option Int
  transactions : Option (List TransactionWithMeta)
deriving DecidableEq, Repr

/-! ## Errors

The source uses boxed string errors; the distinct error strings raised by the
parser are modelled as an inductive type. -/

/-- Parsing errors of `processor.rs`:
* `unsupportedEncoding` — the string "Unsupported transaction encoding";
* `unsupportedMessageFormat` — the string "Unsupported transaction message format";
* `malformedTransferPayload` — the string "Failed to deserialize transfer info: ...". -/
inductive ParseError where
  | unsupportedEncoding
  | unsupportedMessageFormat
  | malformedTransferPayload
deriving DecidableEq, Repr

/-- Outcome of `get_transaction_signature`: the source indexes
`ui_transaction.signatures[0]` with no emptiness guard, so besides `Ok`/`Err`
there is a reachable index-out-of-bounds Rust panic, modelled explicitly. -/
inductive SigResult where
  | ok (sig : String)
  | err (e : ParseError)
  | indexOutOfBounds
deriving DecidableEq, Repr

/-- Outcome of computations that can return a value, return a parse error, or
abort the whole process by a Rust panic. -/
inductive PResult (α : Type) where
  | ok (a : α)
  | err (e : ParseError)
  | crash
deriving DecidableEq, Repr

/-- Map over the success value of a `PResult`, preserving errors and panics. -/
def PResult.map {α β : Type} (f : α → β) : PResult α → PResult β
  | .ok a => .ok (f a)
  | .err e => .err e
  | .crash => .crash

/-! ## processor.rs -/

/-- The well-known system/native-transfer program id matched by
`parse_transaction` (`processor.rs` line 141). -/
def systemProgramId : String := "11111111111111111111111111111111"

/-- `processor.rs::get_transaction_signature`: for a JSON-encoded transaction it
returns `ui_transaction.signatures[0].clone()` — an unguarded index, which
panics when the signature list is empty; for any other encoding it returns the
error "Unsupported transaction encoding". -/
def get_transaction_signature (transaction : EncodedTransaction) : SigResult :=
  match transaction with
  | .json ui_transaction =>
    match ui_transaction.signatures with
    | [] => .indexOutOfBounds
    | sig :: _ => .ok sig
  | .other => .err .unsupportedEncoding

/-- The instruction loop inside `parse_transaction` (`processor.rs` lines
138-155): scan instructions in order; the first `UiInstruction::Parsed
(UiParsedInstruction::Parsed)` whose `program_id` is the system program id
decides the result — its payload is deserialized (error if malformed) and the
loop returns; every other instruction shape falls through; if no instruction
matches, the result is `None`. -/
def find_transfer_instruction (timestamp : Option Int) :
    List UiInstruction → Except ParseError (Option TransactionDetails)
  | [] => .ok none
  | instruction :: rest =>
    match instruction with
    | .parsed (.parsed parsed_inst) =>
      if parsed_inst.program_id = systemProgramId then
        match parsed_inst.parsed with
        | none => .error .malformedTransferPayload
        | some transfer_info =>
          .ok (some { sender := transfer_info.info.source,
                      receiver := transfer_info.info.destination,
                      amount := transfer_info.info.lamports,
                      timestamp := timestamp })
      else find_transfer_instruction timestamp rest
    | _ => find_transfer_instruction timestamp rest

/-- `processor.rs::parse_transaction`: JSON-encoded transaction required
(otherwise "Unsupported transaction encoding"); its message must be in parsed
form (otherwise "Unsupported transaction message format"); then the instruction
loop decides the optional `TransactionDetails`, with the block's timestamp. -/
def parse_transaction (transaction : EncodedTransaction) (timestamp : Option Int) :
    Except ParseError (Option TransactionDetails) :=
  match transaction with
  | .json ui_transaction =>
    match ui_transaction.message with
    | .parsed parsed_message => find_transfer_instruction timestamp parsed_message.instructions
    | .raw => .error .unsupportedMessageFormat
  | .other => .error .unsupportedEncoding

/-- One element of `parse_block`'s result: `(signature, transaction, details)`. -/
abbrev BlockEntry := String × EncodedTransaction × Option TransactionDetails

/-- The transaction loop inside `parse_block` (`processor.rs` lines 34-60):
for each transaction, extract the signature — a signature error propagates with
`?`, aborting the whole block, and an out-of-bounds panic aborts the process;
then `parse_transaction`: `Ok(Some d)` and `Ok(None)` both push an entry, while
`Err` is only logged ("Failed to parse transaction") and the transaction is
skipped, the loop continuing with the rest. -/
def parse_block_go (block_time : Option Int) :
    List TransactionWithMeta → PResult (List BlockEntry)
  | [] => .ok []
  | transaction_with_meta :: rest =>
    match get_transaction_signature transaction_with_meta.transaction with
    | .indexOutOfBounds => .crash
    | .err e => .err e
    | .ok tx_signature =>
      match parse_transaction transaction_with_meta.transaction block_time with
      | .ok parsed =>
        (parse_block_go block_time rest).map
          (fun tail => (tx_signature, transaction_with_meta.transaction, parsed) :: tail)
      | .error _ => parse_block_go block_time rest

/-- `processor.rs::parse_block`: iterate the block's transactions (an absent
list yields the empty result) and collect `(signature, transaction, details)`. -/
def parse_block (block : UiConfirmedBlock) : PResult (List BlockEntry) :=
  match block.transactions with
  | some transactions => parse_block_go block.block_time transactions
  | none => .ok []

/-! ## mod.rs: get_block_with_retry

The RPC client is an oracle `fetch : Nat → Except String UiConfirmedBlock`
giving the result of the n-th `get_block` call (0-indexed).  The loop state and
the observable behaviour (number of `get_block` calls, the sleep durations in
seconds, and the returned value) are made explicit. -/

deriving instance DecidableEq for Except

/-- Observable outcome of `get_block_with_retry`: how many `get_block` calls
were made, the sleep durations between consecutive calls (in order), and the
returned result. -/
structure RetryOutcome where
  calls : Nat
  sleeps : List Nat
  result : Except String UiConfirmedBlock
deriving DecidableEq, Repr

/-- The loop of `mod.rs::get_block_with_retry` (lines 124-137), with state
`attempts` (the current attempt index), `wait_time` (next sleep duration) and
the remaining retry budget `retries - attempts`: a successful `get_block`
returns at once; a failure with budget left sleeps `wait_time`, doubles it and
retries; a failure with the budget exhausted returns that (last) error.
`wait_time` is a `u64` in the source (it feeds `Duration::from_secs`), so the
doubling is `u64` arithmetic: `wait_time *= 2` wraps modulo `2 ^ 64` (release
semantics; a debug build aborts at the overflowing multiplication instead) —
reachable, since `retries` is a `u8` and can reach 255. -/
def get_block_with_retry_go (fetch : Nat → Except String UiConfirmedBlock)
    (attempts wait_time : Nat) : Nat → RetryOutcome
  | 0 =>
    match fetch attempts with
    | .ok block => { calls := 1, sleeps := [], result := .ok block }
    | .error err => { calls := 1, sleeps := [], result := .error err }
  | r + 1 =>
    match fetch attempts with
    | .ok block => { calls := 1, sleeps := [], result := .ok block }
    | .error _ =>
      let rest := get_block_with_retry_go fetch (attempts + 1) (wait_time * 2 % 2 ^ 64) r
      { calls := rest.calls + 1, sleeps := wait_time :: rest.sleeps, result := rest.result }

/-- `mod.rs::get_block_with_retry`: starts at `attempts = 0`,
`wait_time = 2` seconds, with retry budget `retries` (`config.retry_attempts`). -/
def get_block_with_retry (fetch : Nat → Except String UiConfirmedBlock)
    (retries : Nat) : RetryOutcome :=
  get_block_with_retry_go fetch 0 2 retries

/-! ## db/mod.rs: records and upserts

The SQLite tables are modelled as row lists keyed by their primary key; `INSERT
OR REPLACE` deletes the conflicting row (if any) and appends the new one.
Underlying store faults are injected by oracles in the sweep environment. -/

/-- `db/mod.rs::TransactionRecord` (`timestamp : i64`, `block_height : u64`). -/
structure TransactionRecord where
  transaction_id : String
  timestamp : Int
  block_height : Nat
  raw_transaction : String
deriving DecidableEq, Repr

/-- `db/mod.rs::AccountRecord` (`estimated_balance : u64`). -/
structure AccountRecord where
  account_id : String
  estimated_balance : Nat
  related_transactions : List String
deriving DecidableEq, Repr

/-- The persistent store: the `transactions` and `accounts` tables. -/
structure Db where
  transactions : List TransactionRecord
  accounts : List AccountRecord
deriving DecidableEq, Repr

/-- The freshly initialized store (`initialize_db`): both tables empty. -/
def Db.init : Db := { transactions := [], accounts := [] }

/-- `INSERT OR REPLACE INTO transactions ...`: remove any row with the same
`transaction_id`, then add the new row. -/
def upsertTransactionRow (db : Db) (record : TransactionRecord) : Db :=
  { db with transactions :=
      db.transactions.filter (fun r => r.transaction_id ≠ record.transaction_id) ++ [record] }

/-- `INSERT OR REPLACE INTO accounts ...`: remove any row with the same
`account_id`, then add the new row. -/
def upsertAccountRow (db : Db) (record : AccountRecord) : Db :=
  { db with accounts :=
      db.accounts.filter (fun r => r.account_id ≠ record.account_id) ++ [record] }

/-! ## mod.rs: aggregate_blocks -/

/-- Environment of one sweep: the collaborators of `aggregate_blocks`.
* `epoch_info` — the result of `retrieval.rs::get_epoch_info`;
* `attempt slot n` — the result of the n-th `get_block` call for `slot`
  (consumed through `get_block_with_retry`);
* `txStoreFault` / `accStoreFault` — `some e` when the underlying store (or the
  serialization of the related-transactions list) faults on that write,
  making `insert_or_update_transaction` / `insert_or_update_account` fail;
* `encodeTx` — `serde_json::to_string` on an `EncodedTransaction` (total:
  serialization of this serde-derived type does not fail). -/
structure SweepEnv where
  epoch_info : Except String EpochInfo
  attempt : Nat → Nat → Except String UiConfirmedBlock
  txStoreFault : TransactionRecord → Option String
  accStoreFault : AccountRecord → Option String
  encodeTx : EncodedTransaction → String

/-- Sweep persistence state: the store plus the ordered log of
`insert_or_update_account` calls issued so far (observable write trace). -/
structure SweepState where
  db : Db
  account_writes : List AccountRecord
deriving DecidableEq, Repr

/-- The sweep's initial state: fresh store, no writes issued. -/
def SweepState.init : SweepState := { db := Db.init, account_writes := [] }

/-- `db/mod.rs::insert_or_update_transaction`: fails on a store fault,
otherwise performs the `INSERT OR REPLACE` on the transactions table. -/
def insert_or_update_transaction (env : SweepEnv) (st : SweepState)
    (record : TransactionRecord) : Except String SweepState :=
  match env.txStoreFault record with
  | some e => .error e
  | none => .ok { st with db := upsertTransactionRow st.db record }

/-- `db/mod.rs::insert_or_update_account`: fails on a store fault (including a
failing serialization of `related_transactions`), otherwise performs the
`INSERT OR REPLACE` on the accounts table; the call is logged in the write
trace. -/
def insert_or_update_account (env : SweepEnv) (st : SweepState)
    (record : AccountRecord) : Except String SweepState :=
  match env.accStoreFault record with
  | some e => .error e
  | none => .ok { st with db := upsertAccountRow st.db record,
                          account_writes := st.account_writes ++ [record] }

/-- Persistence of one parsed entry (`mod.rs` lines 67-89): build the
`TransactionRecord` — id is the signature, timestamp is
`block_time.unwrap_or_default()`, `block_height` is the slot, raw transaction
serialized — and upsert it; then, when the entry carries `TransactionDetails`,
upsert one `AccountRecord` per `account_id` in `[sender, receiver]`, each with
`estimated_balance = 0` and `related_transactions = [signature]`.  Every `?`
failure propagates. -/
def persist_entry (env : SweepEnv) (slot : Nat) (block_time : Option Int)
    (st : SweepState) (entry : BlockEntry) : Except String SweepState :=
  let record : TransactionRecord :=
    { transaction_id := entry.1, timestamp := block_time.getD 0,
      block_height := slot, raw_transaction := env.encodeTx entry.2.1 }
  match insert_or_update_transaction env st record with
  | .error e => .error e
  | .ok st =>
    match entry.2.2 with
    | none => .ok st
    | some transfer_info =>
      match insert_or_update_account env st
          { account_id := transfer_info.sender, estimated_balance := 0,
            related_transactions := [entry.1] } with
      | .error e => .error e
      | .ok st =>
        insert_or_update_account env st
          { account_id := transfer_info.receiver, estimated_balance := 0,
            related_transactions := [entry.1] }

/-- The per-slot persistence loop (`for transaction in &parsed_response`):
persist each entry in order; any failure propagates at once. -/
def persist_entries (env : SweepEnv) (slot : Nat) (block_time : Option Int) :
    List BlockEntry → SweepState → Except String SweepState
  | [], st => .ok st
  | entry :: rest, st =>
    match persist_entry env slot block_time st entry with
    | .error e => .error e
    | .ok st => persist_entries env slot block_time rest st

/-- Outcome of a sweep: success with its final state, a propagated error, or a
process abort by a Rust panic. -/
inductive SweepResult where
  | ok (st : SweepState)
  | err (e : String)
  | crash
deriving DecidableEq, Repr

/-- Processing of one slot (`mod.rs` lines 59-100): fetch with retry — on
failure log "Failed to fetch block at slot" and keep the state; parse — on
failure log "Failed to parse block at slot" and keep the state; on success
persist every entry, a persistence failure propagating. -/
def process_slot (env : SweepEnv) (retries slot : Nat) (st : SweepState) : SweepResult :=
  match (get_block_with_retry (env.attempt slot) retries).result with
  | .error _ => .ok st
  | .ok block =>
    match parse_block block with
    | .err _ => .ok st
    | .crash => .crash
    | .ok parsed_response =>
      match persist_entries env slot block.block_time parsed_response st with
      | .error e => .err e
      | .ok st => .ok st

/-- The slot loop of `aggregate_blocks`: process slots in order; a persistence
error (or a panic) stops the loop at once. -/
def run_slots (env : SweepEnv) (retries : Nat) : List Nat → SweepState → SweepResult
  | [], st => .ok st
  | slot :: rest, st =>
    match process_slot env retries slot st with
    | .ok st => run_slots env retries rest st
    | .err e => .err e
    | .crash => .crash

/-- The slot window of one sweep (`mod.rs` lines 53-59):
`start_slot = absolute_slot - slot_index`, `end_slot = start_slot +
slots_in_epoch`, iterated as `start_slot..=end_slot`. -/
def sweep_slots (epoch_info : EpochInfo) : List Nat :=
  let start_slot := epoch_info.absolute_slot - epoch_info.slot_index
  let end_slot := start_slot + epoch_info.slots_in_epoch
  List.range' start_slot (end_slot + 1 - start_slot)

/-- `mod.rs::aggregate_blocks`: fetch the epoch info (failure propagates), then
run the slot loop over the epoch window starting from the fresh store. -/
def aggregate_blocks (env : SweepEnv) (retries : Nat) : SweepResult :=
  match env.epoch_info with
  | .error e => .err e
  | .ok epoch_info => run_slots env retries (sweep_slots epoch_info) SweepState.init

/-! ## Derived predicates and concrete example inputs -/

/-- An instruction triggers `parse_transaction`'s transfer branch exactly when
it is `UiInstruction::Parsed (UiParsedInstruction::Parsed p)` with
`p.program_id` the system program id. -/
def matchesTransferProgram : UiInstruction → Bool
  | .parsed (.parsed p) => p.program_id = systemProgramId
  | _ => false

/-- The account writes `aggregate_blocks` issues for one parsed entry
(`mod.rs` lines 76-87): two per recognized transfer — the sender's then the
receiver's, each with `estimated_balance = 0` and `related_transactions` the
single-element list containing the entry's signature — and none otherwise. -/
def entry_account_writes : BlockEntry → List AccountRecord
  | (sig, _, some t) =>
    [{ account_id := t.sender, estimated_balance := 0, related_transactions := [sig] },
     { account_id := t.receiver, estimated_balance := 0, related_transactions := [sig] }]
  | (_, _, none) => []

/-- A recognized native-transfer instruction moving `L` lamports from `A` to `B`. -/
def exTransferInstruction (A B : String) (L : Nat) : UiInstruction :=
  .parsed (.parsed
    { program_id := systemProgramId,
      parsed := some { info := { source := A, destination := B, lamports := L },
                       instruction_type := "transfer" } })

/-- A JSON transaction whose sole instruction is a recognized transfer of
967 lamports from "A" to "B". -/
def exTransferTx : EncodedTransaction :=
  .json { signatures := ["sigGood"],
          message := .parsed { instructions := [exTransferInstruction "A" "B" 967] } }

/-- A JSON transaction whose message is not in parsed form. -/
def exRawMessageTx : EncodedTransaction :=
  .json { signatures := ["sigRaw"], message := .raw }

/-- A block holding a non-parsed-message transaction followed by a recognized
transfer. -/
def exMixedBlock : UiConfirmedBlock :=
  { block_time := some 1720421680,
    transactions := some [{ transaction := exRawMessageTx }, { transaction := exTransferTx }] }

/-- A block holding only the recognized transfer. -/
def exGoodBlock : UiConfirmedBlock :=
  { block_time := some 1720421680, transactions := some [{ transaction := exTransferTx }] }

/-- A block holding one non-JSON-encoded transaction. -/
def exNonJsonBlock : UiConfirmedBlock :=
  { block_time := none, transactions := some [{ transaction := .other }] }

/-- Sweep environment where every `get_block` attempt fails. -/
def envAllFetchFail : SweepEnv :=
  { epoch_info := .ok { absolute_slot := 5, slot_index := 0, slots_in_epoch := 1 },
    attempt := fun _ _ => .error "net",
    txStoreFault := fun _ => none, accStoreFault := fun _ => none,
    encodeTx := fun _ => "tx" }

/-- Sweep environment where every fetch returns the unparseable block. -/
def envParseFail : SweepEnv :=
  { epoch_info := .ok { absolute_slot := 5, slot_index := 0, slots_in_epoch := 1 },
    attempt := fun _ _ => .ok exNonJsonBlock,
    txStoreFault := fun _ => none, accStoreFault := fun _ => none,
    encodeTx := fun _ => "tx" }

/-- Sweep environment where fetching succeeds but every transaction write
faults. -/
def envStoreFail : SweepEnv :=
  { epoch_info := .ok { absolute_slot := 5, slot_index := 0, slots_in_epoch := 1 },
    attempt := fun _ _ => .ok exGoodBlock,
    txStoreFault := fun _ => some "disk full", accStoreFault := fun _ => none,
    encodeTx := fun _ => "tx" }

/-- Sweep environment with successful fetches and a fault-free store. -/
def envHappy : SweepEnv :=
  { epoch_info := .ok { absolute_slot := 5, slot_index := 0, slots_in_epoch := 0 },
    attempt := fun _ _ => .ok exGoodBlock,
    txStoreFault := fun _ => none, accStoreFault := fun _ => none,
    encodeTx := fun _ => "tx" }

/-! ## Shared lemmas about the retry loop -/

/-- When every attempt in the current budget window fails, the retry loop makes
all `r + 1` remaining calls, sleeps `w, w*2 % 2^64, w*4 % 2^64, ...` between
them (the `u64`-wrapping doubling sequence), and returns the error of the last
attempt. -/
theorem get_block_with_retry_go_all_fail (fetch : Nat → Except String UiConfirmedBlock)
    (errs : Nat → String) (a w r : Nat)
    (h : ∀ n, a ≤ n → n ≤ a + r → fetch n = .error (errs n))
    (hw : w < 2 ^ 64) :
    get_block_with_retry_go fetch a w r =
      { calls := r + 1,
        sleeps := (List.range r).map (fun i => w * 2 ^ i % 2 ^ 64),
        result := .error (errs (a + r)) } := by
  induction r generalizing a w with
  | zero =>
    simp [get_block_with_retry_go, h a le_rfl (by omega)]
  | succ r ih =>
    have h0 : fetch a = .error (errs a) := h a le_rfl (by omega)
    have hrec := ih (a + 1) (w * 2 % 2 ^ 64) (fun n hn hn' => h n (by omega) (by omega))
      (Nat.mod_lt _ (by norm_num))
    have harith : a + 1 + r = a + (r + 1) := by omega
    have hlist : w :: (List.range r).map (fun i => w * 2 % 2 ^ 64 * 2 ^ i % 2 ^ 64) =
        (List.range (r + 1)).map (fun i => w * 2 ^ i % 2 ^ 64) := by
      rw [List.range_succ_eq_map, List.map_cons, List.map_map]
      have hcomp : (fun i => w * 2 ^ i % 2 ^ 64) ∘ Nat.succ =
          fun i => w * 2 % 2 ^ 64 * 2 ^ i % 2 ^ 64 := by
        funext i
        show w * 2 ^ (i + 1) % 2 ^ 64 = w * 2 % 2 ^ 64 * 2 ^ i % 2 ^ 64
        rw [Nat.mod_mul_mod]
        congr 1
        rw [pow_succ]
        ring
      rw [hcomp]
      congr 1
      simpa using (Nat.mod_eq_of_lt hw).symm
    rw [show get_block_with_retry_go fetch a w (r + 1) =
        { calls := (get_block_with_retry_go fetch (a + 1) (w * 2 % 2 ^ 64) r).calls + 1,
          sleeps := w :: (get_block_with_retry_go fetch (a + 1) (w * 2 % 2 ^ 64) r).sleeps,
          result := (get_block_with_retry_go fetch (a + 1) (w * 2 % 2 ^ 64) r).result } by
      simp [get_block_with_retry_go, h0]]
    rw [hrec, harith, hlist]

/-- When the attempts before index `a + k` fail and attempt `a + k` succeeds
within the budget, the retry loop returns that block after exactly `k + 1`
calls. -/
theorem get_block_with_retry_go_first_ok (fetch : Nat → Except String UiConfirmedBlock)
    (b : UiConfirmedBlock) (a w r k : Nat) (hk : k ≤ r)
    (hfail : ∀ n, a ≤ n → n < a + k → ∃ e, fetch n = .error e)
    (hok : fetch (a + k) = .ok b) :
    (get_block_with_retry_go fetch a w r).result = .ok b ∧
    (get_block_with_retry_go fetch a w r).calls = k + 1 := by
  induction k generalizing a w r with
  | zero =>
    have h0 : fetch a = .ok b := by simpa using hok
    cases r <;> simp [get_block_with_retry_go, h0]
  | succ k ih =>
    obtain ⟨e, he⟩ := hfail a le_rfl (by omega)
    obtain ⟨r', rfl⟩ : ∃ r', r = r' + 1 := ⟨r - 1, by omega⟩
    have hrec := ih (a + 1) (w * 2 % 2 ^ 64) r' (by omega)
      (fun n hn hn' => hfail n (by omega) (by omega))
      (by rw [show a + 1 + k = a + (k + 1) by omega]; exact hok)
    simpa [get_block_with_retry_go, he] using hrec

/-- Counterexample to C4 as stated: at `max_retries = 64` (reachable, since
`retry_attempts` is a `u8`) with every attempt failing, the sleep sequence is
not `2, 4, ..., 2 ^ 64` — the 64th sleep is `2 ^ 64 % 2 ^ 64 = 0`, because the
source's `u64` `wait_time *= 2` overflows past `2 ^ 63`. -/
theorem retry_backoff_overflow :
    (get_block_with_retry (fun _ => .error "e") 64).sleeps ≠
      (List.range 64).map (fun i => 2 ^ (i + 1)) := by
  decide

/-- C4 (amended): with every attempt failing, `get_block_with_retry` performs
exactly `r + 1` fetch attempts, sleeps `2 ^ 1 % 2 ^ 64, ..., 2 ^ r % 2 ^ 64`
seconds between consecutive attempts — the doubling sequence in `u64` wrapping
arithmetic, which equals `2, 4, ..., 2 ^ r` whenever `r ≤ 63` — and returns
the error of the last attempt; and as soon as an attempt within the budget
succeeds, it returns that block with no further attempts. -/
theorem get_block_with_retry_spec (fetch : Nat → Except String UiConfirmedBlock) (r : Nat) :
    (∀ errs : Nat → String, (∀ n, n ≤ r → fetch n = .error (errs n)) →
        get_block_with_retry fetch r =
          { calls := r + 1,
            sleeps := (List.range r).map (fun i => 2 ^ (i + 1) % 2 ^ 64),
            result := .error (errs r) }) ∧
    (r ≤ 63 →
        (List.range r).map (fun i => 2 ^ (i + 1) % 2 ^ 64) =
          (List.range r).map (fun i => 2 ^ (i + 1))) ∧
    (∀ k b, k ≤ r → (∀ n, n < k → ∃ e, fetch n = .error e) → fetch k = .ok b →
        (get_block_with_retry fetch r).result = .ok b ∧
        (get_block_with_retry fetch r).calls = k + 1) := by
  refine ⟨?_, ?_, ?_⟩
  · intro errs h
    have hall := get_block_with_retry_go_all_fail fetch errs 0 2 r
      (fun n hn hn' => h n (by omega)) (by norm_num)
    have hfun : (fun i => 2 * 2 ^ i % 2 ^ 64 : Nat → Nat) =
        fun i => 2 ^ (i + 1) % 2 ^ 64 := by
      funext i
      congr 1
      rw [pow_succ]
      ring
    rw [get_block_with_retry, hall, hfun, Nat.zero_add]
  · intro hr
    apply List.map_congr_left
    intro i hi
    rw [List.mem_range] at hi
    have : (2 : Nat) ^ (i + 1) < 2 ^ 64 :=
      Nat.pow_lt_pow_right (by norm_num) (by omega)
    exact Nat.mod_eq_of_lt this
  · intro k b hk hfail hok
    exact get_block_with_retry_go_first_ok fetch b 0 2 r k hk
      (fun n hn hn' => hfail n (by omega)) (by simpa using hok)

/-- Witness for C4: with `r = 2` and every attempt failing with "e", the loop
makes 3 calls, sleeps 2 then 4 seconds (unwrapped, since `2 ≤ 63`), and
returns "e"; with the second attempt succeeding, it returns that block after
exactly 2 calls. -/
theorem get_block_with_retry_spec_witness :
    get_block_with_retry (fun _ => .error "e") 2 =
      { calls := 3, sleeps := [2, 4], result := .error "e" } ∧
    (List.range 2).map (fun i => 2 ^ (i + 1) % 2 ^ 64) =
      (List.range 2).map (fun i => 2 ^ (i + 1)) ∧
    ((get_block_with_retry
        (fun n => if n = 1 then .ok { block_time := none, transactions := none }
                  else .error "e") 2).result =
      .ok { block_time := none, transactions := none } ∧
     (get_block_with_retry
        (fun n => if n = 1 then .ok { block_time := none, transactions := none }
                  else .error "e") 2).calls = 2) := by
  refine ⟨?_, ?_, ?_⟩
  · have := (get_block_with_retry_spec (fun _ => .error "e") 2).1 (fun _ => "e")
      (fun n hn => rfl)
    rw [this]
    decide
  · exact (get_block_with_retry_spec (fun _ => .error "e") 2).2.1 (by omega)
  · exact (get_block_with_retry_spec _ 2).2.2 1 { block_time := none, transactions := none }
      (by omega)
      (fun n hn => by
        obtain rfl : n = 0 := by omega
        exact ⟨"e", rfl⟩)
      rfl

/-- C7: for an epoch-info result with `slot_index ≤ absolute_slot`, the sweep
window is `range' start_slot (slots_in_epoch + 1)` with
`start_slot = absolute_slot - slot_index`, i.e. it contains exactly the slots
from `start_slot` to `end_slot = start_slot + slots_in_epoch` inclusive, each
exactly once (no duplicates), in strictly increasing order. -/
theorem sweep_slots_spec (e : EpochInfo) (h : e.slot_index ≤ e.absolute_slot) :
    sweep_slots e = List.range' (e.absolute_slot - e.slot_index) (e.slots_in_epoch + 1) ∧
    (∀ s : Nat, s ∈ sweep_slots e ↔
        e.absolute_slot - e.slot_index ≤ s ∧
        s ≤ (e.absolute_slot - e.slot_index) + e.slots_in_epoch) ∧
    (sweep_slots e).Nodup ∧
    List.Pairwise (· < ·) (sweep_slots e) := by
  have heq : sweep_slots e =
      List.range' (e.absolute_slot - e.slot_index) (e.slots_in_epoch + 1) := by
    have hrfl : sweep_slots e = List.range' (e.absolute_slot - e.slot_index)
        (e.absolute_slot - e.slot_index + e.slots_in_epoch + 1 -
          (e.absolute_slot - e.slot_index)) := rfl
    have hcount : e.absolute_slot - e.slot_index + e.slots_in_epoch + 1 -
        (e.absolute_slot - e.slot_index) = e.slots_in_epoch + 1 := by omega
    rw [hrfl, hcount]
  refine ⟨heq, ?_, ?_, ?_⟩
  · intro s
    rw [heq, List.mem_range'_1]
    omega
  · rw [heq]
    exact List.nodup_range' _ _
  · rw [heq]
    exact List.pairwise_lt_range' _ _

/-- Witness for C7: the epoch info `{absolute_slot := 10, slot_index := 2,
slots_in_epoch := 3}` yields exactly the slots 8, 9, 10, 11 in order. -/
theorem sweep_slots_spec_witness :
    sweep_slots { absolute_slot := 10, slot_index := 2, slots_in_epoch := 3 } =
      List.range' 8 4 ∧
    sweep_slots { absolute_slot := 10, slot_index := 2, slots_in_epoch := 3 } =
      [8, 9, 10, 11] := by
  refine ⟨(sweep_slots_spec { absolute_slot := 10, slot_index := 2, slots_in_epoch := 3 }
    (by decide)).1, by decide⟩

/-- C9: for two `TransactionRecord`s with the same `transaction_id`, upserting
the first and then the second (both writes fault-free) leaves exactly one
stored row for that id, whose fields are those of the second record; and
re-applying the identical second record leaves the stored state unchanged. -/
theorem upsert_transaction_latest_wins (env : SweepEnv) (st : SweepState)
    (r1 r2 : TransactionRecord) (hid : r1.transaction_id = r2.transaction_id)
    (h1 : env.txStoreFault r1 = none) (h2 : env.txStoreFault r2 = none) :
    ∀ st1 st2, insert_or_update_transaction env st r1 = .ok st1 →
      insert_or_update_transaction env st1 r2 = .ok st2 →
      st2.db.transactions.filter
        (fun r => r.transaction_id = r2.transaction_id) = [r2] ∧
      insert_or_update_transaction env st2 r2 = .ok st2 := by
  intro st1 st2 e1 e2
  rw [insert_or_update_transaction, h1] at e1
  rw [insert_or_update_transaction, h2] at e2
  cases e1
  cases e2
  rw [insert_or_update_transaction, h2]
  constructor
  · simp [upsertTransactionRow, List.filter_append, List.filter_filter, hid]
  · have hrow : upsertTransactionRow (upsertTransactionRow (upsertTransactionRow st.db r1) r2) r2
        = upsertTransactionRow (upsertTransactionRow st.db r1) r2 := by
      simp [upsertTransactionRow, List.filter_append, List.filter_filter]
    rw [hrow]

/-- Witness for C9: two concrete records sharing the id "t" with different
payloads; after both upserts the row for "t" is exactly the second record and a
third identical upsert is a no-op. -/
theorem upsert_transaction_latest_wins_witness :
    ({ db := { transactions :=
         [{ transaction_id := "t", timestamp := 2, block_height := 3,
            raw_transaction := "new" }], accounts := [] },
       account_writes := [] } : SweepState).db.transactions.filter
        (fun r => r.transaction_id = "t") =
      [{ transaction_id := "t", timestamp := 2, block_height := 3,
         raw_transaction := "new" }] ∧
    insert_or_update_transaction
      { epoch_info := .error "unused", attempt := fun _ _ => .error "unused",
        txStoreFault := fun _ => none, accStoreFault := fun _ => none,
        encodeTx := fun _ => "" }
      { db := { transactions :=
          [{ transaction_id := "t", timestamp := 2, block_height := 3,
             raw_transaction := "new" }], accounts := [] },
        account_writes := [] }
      { transaction_id := "t", timestamp := 2, block_height := 3,
        raw_transaction := "new" } =
      .ok { db := { transactions :=
              [{ transaction_id := "t", timestamp := 2, block_height := 3,
                 raw_transaction := "new" }], accounts := [] },
            account_writes := [] } :=
  upsert_transaction_latest_wins _ SweepState.init
    { transaction_id := "t", timestamp := 1, block_height := 1, raw_transaction := "old" }
    { transaction_id := "t", timestamp := 2, block_height := 3, raw_transaction := "new" }
    rfl rfl rfl
    { db := { transactions :=
        [{ transaction_id := "t", timestamp := 1, block_height := 1,
           raw_transaction := "old" }], accounts := [] },
      account_writes := [] }
    { db := { transactions :=
        [{ transaction_id := "t", timestamp := 2, block_height := 3,
           raw_transaction := "new" }], accounts := [] },
      account_writes := [] }
    (by decide) (by decide)

/-- C10: signature extraction on a JSON-encoded transaction is the unguarded
index `signatures[0]`: with a non-empty signature list it returns the first
signature, and with an empty signature list it reaches the index-out-of-bounds
panic — the operation is total only under the non-emptiness precondition. -/
theorem get_transaction_signature_partiality :
    (∀ (u : UiTransaction) (s : String) (ss : List String),
        u.signatures = s :: ss → get_transaction_signature (.json u) = .ok s) ∧
    (∀ u : UiTransaction,
        u.signatures = [] →
        get_transaction_signature (.json u) = .indexOutOfBounds) := by
  constructor
  · intro u s ss hs
    simp [get_transaction_signature, hs]
  · intro u hs
    simp [get_transaction_signature, hs]

/-- Witness for C10: a one-signature transaction yields that signature; the
same transaction with no signatures reaches the out-of-bounds panic. -/
theorem get_transaction_signature_partiality_witness :
    get_transaction_signature (.json { signatures := ["s0", "s1"], message := .raw }) =
      .ok "s0" ∧
    get_transaction_signature (.json { signatures := [], message := .raw }) =
      .indexOutOfBounds :=
  ⟨get_transaction_signature_partiality.1 _ "s0" ["s1"] rfl,
   get_transaction_signature_partiality.2 _ rfl⟩

/-! ## Lemmas about the transaction parser -/

/-- The instruction loop returns the transfer decoded from the first
instruction matching the system program id, ignoring all later instructions. -/
theorem find_transfer_first_match (bt : Option Int) (p : SolanaParsedInstruction)
    (payload : ParsedInstruction) (hpid : p.program_id = systemProgramId)
    (hpay : p.parsed = some payload) :
    ∀ pre post, (∀ i ∈ pre, matchesTransferProgram i = false) →
      find_transfer_instruction bt (pre ++ .parsed (.parsed p) :: post) =
        .ok (some { sender := payload.info.source,
                    receiver := payload.info.destination,
                    amount := payload.info.lamports, timestamp := bt }) := by
  intro pre
  induction pre with
  | nil =>
    intro post _
    simp [find_transfer_instruction, hpid, hpay]
  | cons i pre ih =>
    intro post h
    have hi := h i (List.mem_cons_self _ _)
    have ih' := ih post (fun j hj => h j (List.mem_cons_of_mem _ hj))
    cases i with
    | parsed pi =>
      cases pi with
      | parsed q =>
        have hq : ¬ q.program_id = systemProgramId := by
          simpa [matchesTransferProgram] using hi
        simpa [find_transfer_instruction, hq] using ih'
      | partiallyDecoded => simpa [find_transfer_instruction] using ih'
    | compiled => simpa [find_transfer_instruction] using ih'

/-- The instruction loop yields `none` when no instruction matches the system
program id. -/
theorem find_transfer_no_match (bt : Option Int) :
    ∀ instrs, (∀ i ∈ instrs, matchesTransferProgram i = false) →
      find_transfer_instruction bt instrs = .ok none := by
  intro instrs
  induction instrs with
  | nil => intro _; rfl
  | cons i rest ih =>
    intro h
    have hi := h i (List.mem_cons_self _ _)
    have ih' := ih (fun j hj => h j (List.mem_cons_of_mem _ hj))
    cases i with
    | parsed pi =>
      cases pi with
      | parsed q =>
        have hq : ¬ q.program_id = systemProgramId := by
          simpa [matchesTransferProgram] using hi
        simpa [find_transfer_instruction, hq] using ih'
      | partiallyDecoded => simpa [find_transfer_instruction] using ih'
    | compiled => simpa [find_transfer_instruction] using ih'

/-- A non-JSON-encoded transaction anywhere after well-signed JSON transactions
makes the block loop abort with the encoding error. -/
theorem parse_block_go_nonjson_aborts (bt : Option Int) (l2 : List TransactionWithMeta) :
    ∀ l1 : List TransactionWithMeta,
      (∀ t ∈ l1, ∃ u s ss, t.transaction = .json u ∧ u.signatures = s :: ss) →
      parse_block_go bt (l1 ++ { transaction := .other } :: l2) =
        .err .unsupportedEncoding := by
  intro l1
  induction l1 with
  | nil =>
    intro _
    simp [parse_block_go, get_transaction_signature]
  | cons t l1 ih =>
    intro h
    obtain ⟨u, s, ss, ht, hs⟩ := h t (List.mem_cons_self _ _)
    have ih' := ih (fun t' ht' => h t' (List.mem_cons_of_mem _ ht'))
    have hsig : get_transaction_signature t.transaction = .ok s := by
      rw [ht]
      simp [get_transaction_signature, hs]
    cases hpt : parse_transaction t.transaction bt with
    | ok p => simp [parse_block_go, hsig, hpt, ih', PResult.map]
    | error e => simp [parse_block_go, hsig, hpt, ih']

/-! ## Claim theorems about the parser -/

/-- C3: a block containing a non-JSON-encoded transaction (after JSON-encoded,
signed ones): signature extraction on it fails with the unsupported-encoding
error, and `parse_block` on the whole block aborts with that error, returning
no entries. -/
theorem nonjson_transaction_aborts_block (block : UiConfirmedBlock)
    (l1 l2 : List TransactionWithMeta)
    (hpre : ∀ t ∈ l1, ∃ u s ss, t.transaction = .json u ∧ u.signatures = s :: ss)
    (hb : block.transactions = some (l1 ++ { transaction := .other } :: l2)) :
    get_transaction_signature .other = .err .unsupportedEncoding ∧
    parse_block block = .err .unsupportedEncoding := by
  refine ⟨rfl, ?_⟩
  rw [parse_block, hb]
  exact parse_block_go_nonjson_aborts _ _ _ hpre

/-- Witness for C3: the block `[transfer tx, non-JSON tx]` parses to the
unsupported-encoding error. -/
theorem nonjson_transaction_aborts_block_witness :
    get_transaction_signature .other = .err .unsupportedEncoding ∧
    parse_block { block_time := none,
                  transactions := some [{ transaction := exTransferTx },
                                        { transaction := .other }] } =
      .err .unsupportedEncoding :=
  nonjson_transaction_aborts_block _ [{ transaction := exTransferTx }] []
    (fun t ht => by
      rw [List.mem_singleton] at ht
      subst ht
      exact ⟨_, "sigGood", [], rfl, rfl⟩)
    rfl

/-- Counterexample to C2 as stated: `exMixedBlock` contains a JSON transaction
whose message is not in parsed form, yet `parse_block` does not abort — it
skips that transaction and returns the entry of the following transfer. -/
theorem raw_message_block_not_aborted :
    (∃ t ∈ [({ transaction := exRawMessageTx } : TransactionWithMeta),
            { transaction := exTransferTx }],
        ∃ u, t.transaction = EncodedTransaction.json u ∧ u.message = UiMessage.raw) ∧
    exMixedBlock.transactions = some [{ transaction := exRawMessageTx },
                                      { transaction := exTransferTx }] ∧
    parse_block exMixedBlock =
      .ok [("sigGood", exTransferTx,
            some { sender := "A", receiver := "B", amount := 967,
                   timestamp := some 1720421680 })] ∧
    parse_block exMixedBlock ≠ .err .unsupportedMessageFormat := by
  refine ⟨⟨{ transaction := exRawMessageTx }, List.mem_cons_self _ _, ?_⟩, rfl, ?_, ?_⟩
  · exact ⟨{ signatures := ["sigRaw"], message := .raw }, rfl, rfl⟩
  · rfl
  · decide

/-- C2 (amended): a JSON-encoded transaction whose message is not in parsed
form yields the unsupported-message-format error from `parse_transaction`, and
`parse_block` skips exactly that transaction — it contributes no entry, and the
remaining transactions of the block are still processed. -/
theorem raw_message_transaction_skipped (bt : Option Int) (u : UiTransaction)
    (s : String) (ss : List String) (rest : List TransactionWithMeta)
    (hraw : u.message = .raw) (hs : u.signatures = s :: ss) :
    parse_transaction (.json u) bt = .error .unsupportedMessageFormat ∧
    parse_block_go bt ({ transaction := .json u } :: rest) = parse_block_go bt rest := by
  have hpt : parse_transaction (.json u) bt = .error .unsupportedMessageFormat := by
    simp [parse_transaction, hraw]
  exact ⟨hpt, by simp [parse_block_go, get_transaction_signature, hs, hpt]⟩

/-- Witness for C2 (amended): the raw-message transaction of `exMixedBlock` is
dropped and the rest of the block parses as if it were absent. -/
theorem raw_message_transaction_skipped_witness :
    parse_transaction (.json { signatures := ["sigRaw"], message := .raw })
        (some 1720421680) = .error .unsupportedMessageFormat ∧
    parse_block_go (some 1720421680)
        [{ transaction := .json { signatures := ["sigRaw"], message := .raw } },
         { transaction := exTransferTx }] =
      parse_block_go (some 1720421680) [{ transaction := exTransferTx }] :=
  raw_message_transaction_skipped (some 1720421680) _ "sigRaw" [] _ rfl rfl

/-- C5: a JSON transaction whose first system-program instruction (all earlier
instructions not matching the transfer program id, later instructions
arbitrary and ignored) decodes to `{source, destination, lamports}` parses to
exactly those transfer details, with the block's timestamp; on a block holding
this sole transaction, `parse_block` yields exactly one entry with those
details.  The sole-instruction case is `pre = post = []`. -/
theorem first_transfer_instruction_wins (u : UiTransaction)
    (pre post : List UiInstruction) (p : SolanaParsedInstruction)
    (payload : ParsedInstruction) (s : String) (ss : List String)
    (hmsg : u.message = .parsed { instructions := pre ++ .parsed (.parsed p) :: post })
    (hpre : ∀ i ∈ pre, matchesTransferProgram i = false)
    (hpid : p.program_id = systemProgramId)
    (hpay : p.parsed = some payload)
    (hs : u.signatures = s :: ss) :
    (∀ bt, parse_transaction (.json u) bt =
        .ok (some { sender := payload.info.source,
                    receiver := payload.info.destination,
                    amount := payload.info.lamports, timestamp := bt })) ∧
    ∀ block : UiConfirmedBlock,
      block.transactions = some [{ transaction := .json u }] →
      parse_block block =
        .ok [(s, .json u,
              some { sender := payload.info.source,
                     receiver := payload.info.destination,
                     amount := payload.info.lamports,
                     timestamp := block.block_time })] := by
  have hpt : ∀ bt, parse_transaction (.json u) bt =
      .ok (some { sender := payload.info.source,
                  receiver := payload.info.destination,
                  amount := payload.info.lamports, timestamp := bt }) := by
    intro bt
    rw [parse_transaction]
    simp only [hmsg]
    exact find_transfer_first_match bt p payload hpid hpay pre post hpre
  refine ⟨hpt, ?_⟩
  intro block hb
  rw [parse_block, hb]
  simp [parse_block_go, get_transaction_signature, hs, hpt block.block_time, PResult.map]

/-- Witness for C5: the sole-instruction transfer of 967 lamports from "A" to
"B" yields exactly `TransactionDetails {sender := "A", receiver := "B",
amount := 967}` with the block's timestamp. -/
theorem first_transfer_instruction_wins_witness :
    parse_transaction exTransferTx (some 1720421680) =
      .ok (some { sender := "A", receiver := "B", amount := 967,
                  timestamp := some 1720421680 }) ∧
    parse_block exGoodBlock =
      .ok [("sigGood",
            .json { signatures := ["sigGood"],
                    message := .parsed
                      { instructions := [exTransferInstruction "A" "B" 967] } },
            some { sender := "A", receiver := "B", amount := 967,
                   timestamp := exGoodBlock.block_time })] :=
  ⟨(first_transfer_instruction_wins _ [] [] _
      { info := { source := "A", destination := "B", lamports := 967 },
        instruction_type := "transfer" }
      "sigGood" [] rfl (fun i hi => absurd hi (List.not_mem_nil i)) rfl rfl rfl).1
      (some 1720421680),
   (first_transfer_instruction_wins _ [] [] _
      { info := { source := "A", destination := "B", lamports := 967 },
        instruction_type := "transfer" }
      "sigGood" [] rfl (fun i hi => absurd hi (List.not_mem_nil i)) rfl rfl rfl).2
      exGoodBlock rfl⟩

/-- C8: a JSON transaction with a parsed message none of whose instructions
matches the transfer program id parses to `none` (no error), and `parse_block`
keeps its entry with `details = none` — both in the middle of a block and as
the sole transaction of a block. -/
theorem unmatched_transaction_kept (u : UiTransaction)
    (instrs : List UiInstruction) (s : String) (ss : List String)
    (hmsg : u.message = .parsed { instructions := instrs })
    (hnone : ∀ i ∈ instrs, matchesTransferProgram i = false)
    (hs : u.signatures = s :: ss) :
    (∀ bt, parse_transaction (.json u) bt = .ok none) ∧
    (∀ bt rest, parse_block_go bt ({ transaction := .json u } :: rest) =
        (parse_block_go bt rest).map (fun tail => (s, .json u, none) :: tail)) ∧
    ∀ block : UiConfirmedBlock,
      block.transactions = some [{ transaction := .json u }] →
      parse_block block = .ok [(s, .json u, none)] := by
  have hpt : ∀ bt, parse_transaction (.json u) bt = .ok none := by
    intro bt
    rw [parse_transaction]
    simp only [hmsg]
    exact find_transfer_no_match bt instrs hnone
  refine ⟨hpt, ?_, ?_⟩
  · intro bt rest
    simp [parse_block_go, get_transaction_signature, hs, hpt bt]
  · intro block hb
    rw [parse_block, hb]
    simp [parse_block_go, get_transaction_signature, hs, hpt block.block_time, PResult.map]

/-- Witness for C8: a transaction holding only a compiled (non-parsed)
instruction is kept in the output with no details. -/
theorem unmatched_transaction_kept_witness :
    parse_transaction
        (.json { signatures := ["sigNone"],
                 message := .parsed { instructions := [.compiled] } }) none =
      .ok none ∧
    parse_block { block_time := none,
                  transactions := some
                    [{ transaction := .json { signatures := ["sigNone"],
                                              message := .parsed
                                                { instructions := [.compiled] } } }] } =
      .ok [("sigNone",
            .json { signatures := ["sigNone"],
                    message := .parsed { instructions := [.compiled] } }, none)] :=
  ⟨(unmatched_transaction_kept _ [.compiled] "sigNone" [] rfl
      (fun i hi => by
        rw [List.mem_singleton] at hi
        subst hi
        rfl) rfl).1 none,
   (unmatched_transaction_kept _ [.compiled] "sigNone" [] rfl
      (fun i hi => by
        rw [List.mem_singleton] at hi
        subst hi
        rfl) rfl).2.2 _ rfl⟩

/-! ## Lemmas about persistence and the sweep -/

/-- A successful transaction upsert leaves the account-write trace unchanged. -/
theorem insert_or_update_transaction_trace (env : SweepEnv) (st : SweepState)
    (r : TransactionRecord) (st' : SweepState)
    (h : insert_or_update_transaction env st r = .ok st') :
    st'.account_writes = st.account_writes := by
  rw [insert_or_update_transaction] at h
  cases hf : env.txStoreFault r with
  | some e =>
    rw [hf] at h
    simp at h
  | none =>
    rw [hf] at h
    simp only [Except.ok.injEq] at h
    subst h
    rfl

/-- A successful account upsert appends exactly its record to the trace. -/
theorem insert_or_update_account_trace (env : SweepEnv) (st : SweepState)
    (r : AccountRecord) (st' : SweepState)
    (h : insert_or_update_account env st r = .ok st') :
    st'.account_writes = st.account_writes ++ [r] := by
  rw [insert_or_update_account] at h
  cases hf : env.accStoreFault r with
  | some e =>
    rw [hf] at h
    simp at h
  | none =>
    rw [hf] at h
    simp only [Except.ok.injEq] at h
    subst h
    rfl

/-- Persisting one entry appends exactly its `entry_account_writes` to the
account-write trace: two writes for a recognized transfer, none otherwise. -/
theorem persist_entry_trace (env : SweepEnv) (slot : Nat) (bt : Option Int)
    (st : SweepState) (entry : BlockEntry) (st' : SweepState)
    (h : persist_entry env slot bt st entry = .ok st') :
    st'.account_writes = st.account_writes ++ entry_account_writes entry := by
  obtain ⟨sig, tx, det⟩ := entry
  simp only [persist_entry] at h
  cases h1 : insert_or_update_transaction env st
      { transaction_id := sig, timestamp := bt.getD 0,
        block_height := slot, raw_transaction := env.encodeTx tx } with
  | error e =>
    rw [h1] at h
    simp at h
  | ok st1 =>
    rw [h1] at h
    have hw1 := insert_or_update_transaction_trace env st _ st1 h1
    cases det with
    | none =>
      simp only [Except.ok.injEq] at h
      subst h
      simp [entry_account_writes, hw1]
    | some transfer_info =>
      simp only at h
      cases h2 : insert_or_update_account env st1
          { account_id := transfer_info.sender, estimated_balance := 0,
            related_transactions := [sig] } with
      | error e =>
        rw [h2] at h
        simp at h
      | ok st2 =>
        rw [h2] at h
        have hw2 := insert_or_update_account_trace env st1 _ st2 h2
        have hw3 := insert_or_update_account_trace env st2 _ st' h
        rw [hw3, hw2, hw1]
        simp [entry_account_writes]

/-- The per-slot persistence loop appends the concatenated per-entry account
writes to the trace. -/
theorem persist_entries_trace (env : SweepEnv) (slot : Nat) (bt : Option Int) :
    ∀ (entries : List BlockEntry) (st st' : SweepState),
      persist_entries env slot bt entries st = .ok st' →
      st'.account_writes =
        st.account_writes ++ entries.flatMap entry_account_writes := by
  intro entries
  induction entries with
  | nil =>
    intro st st' h
    rw [persist_entries] at h
    simp only [Except.ok.injEq] at h
    subst h
    simp
  | cons entry rest ih =>
    intro st st' h
    rw [persist_entries] at h
    cases h1 : persist_entry env slot bt st entry with
    | error e =>
      rw [h1] at h
      simp at h
    | ok st1 =>
      rw [h1] at h
      rw [ih st1 st' h, persist_entry_trace env slot bt st entry st1 h1]
      simp

/-- When every fetch attempt at every slot fails, every slot of the loop is
logged and skipped, leaving the state untouched. -/
theorem run_slots_all_fetch_fail (env : SweepEnv) (retries : Nat)
    (h : ∀ slot n, ∃ e, env.attempt slot n = .error e) :
    ∀ (slots : List Nat) (st : SweepState), run_slots env retries slots st = .ok st := by
  intro slots
  induction slots with
  | nil => intro st; rfl
  | cons slot rest ih =>
    intro st
    have hres : ∃ e, (get_block_with_retry (env.attempt slot) retries).result = .error e := by
      obtain ⟨errs, herrs⟩ : ∃ errs : Nat → String,
          ∀ n, env.attempt slot n = .error (errs n) :=
        ⟨fun n => Classical.choose (h slot n), fun n => Classical.choose_spec (h slot n)⟩
      refine ⟨errs retries, ?_⟩
      rw [get_block_with_retry,
        get_block_with_retry_go_all_fail (env.attempt slot) errs 0 2 retries
          (fun n _ _ => herrs n) (by norm_num)]
      simp
    obtain ⟨e, he⟩ := hres
    simp [run_slots, process_slot, he, ih st]

/-! ## Claim theorems about the sweep -/

/-- C1: in the slot loop, a fetch failure (retry budget exhausted) or a
block-parse failure at a slot leaves the state untouched and the sweep
continues with the remaining slots, while a persistence failure while writing a
slot's records makes the whole sweep return that error immediately; and a
sweep in which every slot's fetch attempt fails returns success with the
initial (empty) persistence state. -/
theorem sweep_failure_asymmetry (env : SweepEnv) (retries : Nat) :
    (∀ (slot : Nat) (rest : List Nat) (st : SweepState) (e : String),
        (get_block_with_retry (env.attempt slot) retries).result = .error e →
        run_slots env retries (slot :: rest) st = run_slots env retries rest st) ∧
    (∀ (slot : Nat) (rest : List Nat) (st : SweepState)
        (block : UiConfirmedBlock) (pe : ParseError),
        (get_block_with_retry (env.attempt slot) retries).result = .ok block →
        parse_block block = .err pe →
        run_slots env retries (slot :: rest) st = run_slots env retries rest st) ∧
    (∀ (slot : Nat) (rest : List Nat) (st : SweepState)
        (block : UiConfirmedBlock) (entries : List BlockEntry) (e : String),
        (get_block_with_retry (env.attempt slot) retries).result = .ok block →
        parse_block block = .ok entries →
        persist_entries env slot block.block_time entries st = .error e →
        run_slots env retries (slot :: rest) st = .err e) ∧
    (∀ epoch_info : EpochInfo, env.epoch_info = .ok epoch_info →
        (∀ slot n, ∃ e, env.attempt slot n = .error e) →
        aggregate_blocks env retries = .ok SweepState.init) := by
  refine ⟨?_, ?_, ?_, ?_⟩
  · intro slot rest st e he
    simp [run_slots, process_slot, he]
  · intro slot rest st block pe hb hp
    simp [run_slots, process_slot, hb, hp]
  · intro slot rest st block entries e hb hp hpe
    simp [run_slots, process_slot, hb, hp, hpe]
  · intro epoch_info hei hall
    rw [aggregate_blocks, hei]
    exact run_slots_all_fetch_fail env retries hall _ _

/-- Witness for C1: a fetch failure and a parse failure each skip their slot; a
store fault stops the sweep with that error; an all-fetch-fail sweep returns
success with the empty state. -/
theorem sweep_failure_asymmetry_witness :
    run_slots envAllFetchFail 1 [5] SweepState.init =
      run_slots envAllFetchFail 1 [] SweepState.init ∧
    run_slots envParseFail 0 [5] SweepState.init =
      run_slots envParseFail 0 [] SweepState.init ∧
    run_slots envStoreFail 0 [5] SweepState.init = .err "disk full" ∧
    aggregate_blocks envAllFetchFail 1 = .ok SweepState.init :=
  ⟨(sweep_failure_asymmetry envAllFetchFail 1).1 5 [] SweepState.init "net" rfl,
   (sweep_failure_asymmetry envParseFail 0).2.1 5 [] SweepState.init
     exNonJsonBlock .unsupportedEncoding rfl rfl,
   (sweep_failure_asymmetry envStoreFail 0).2.2.1 5 [] SweepState.init
     exGoodBlock
     [("sigGood", exTransferTx,
       some { sender := "A", receiver := "B", amount := 967,
              timestamp := some 1720421680 })]
     "disk full" rfl rfl rfl,
   (sweep_failure_asymmetry envAllFetchFail 1).2.2.2 _ rfl
     (fun _ _ => ⟨"net", rfl⟩)⟩

/-- C6: every successful run of the per-slot persistence loop appends, for each
recognized transfer, exactly two account writes — the sender's then the
receiver's, each with `estimated_balance = 0` and `related_transactions` equal
to the single-element list holding the current transaction id (and no writes
for unrecognized entries); and each account write replaces the account row
outright — after it, the only row with that `account_id` is exactly the written
record, with no accumulation from any earlier row. -/
theorem two_account_writes_per_transfer (env : SweepEnv) (slot : Nat) (bt : Option Int) :
    (∀ (entries : List BlockEntry) (st st' : SweepState),
        persist_entries env slot bt entries st = .ok st' →
        st'.account_writes =
          st.account_writes ++ entries.flatMap entry_account_writes) ∧
    ∀ (db : Db) (record : AccountRecord),
      (upsertAccountRow db record).accounts.filter
        (fun r => r.account_id = record.account_id) = [record] := by
  refine ⟨persist_entries_trace env slot bt, ?_⟩
  intro db record
  simp [upsertAccountRow, List.filter_append, List.filter_filter]

/-- Witness for C6: persisting the recognized 967-lamport transfer issues
exactly the sender write then the receiver write, each with zero balance and
the single transaction id; and writing the sender record over a store already
holding a different row for "A" leaves exactly the new record as "A"'s row. -/
theorem two_account_writes_per_transfer_witness :
    ({ db := { transactions := [{ transaction_id := "sigGood",
                                  timestamp := 1720421680,
                                  block_height := 5,
                                  raw_transaction := "tx" }],
               accounts := [{ account_id := "A",
                              estimated_balance := 0,
                              related_transactions := ["sigGood"] },
                            { account_id := "B",
                              estimated_balance := 0,
                              related_transactions := ["sigGood"] }] },
       account_writes := [{ account_id := "A",
                            estimated_balance := 0,
                            related_transactions := ["sigGood"] },
                          { account_id := "B",
                            estimated_balance := 0,
                            related_transactions := ["sigGood"] }] } :
        SweepState).account_writes =
      SweepState.init.account_writes ++
        ([(("sigGood" : String), exTransferTx,
           some { sender := "A", receiver := "B", amount := 967,
                  timestamp := some 1720421680 })] : List BlockEntry).flatMap
          entry_account_writes ∧
    (upsertAccountRow
        { transactions := [],
          accounts := [{ account_id := "A",
                         estimated_balance := 7,
                         related_transactions := ["older"] }] }
        { account_id := "A", estimated_balance := 0,
          related_transactions := ["sigGood"] }).accounts.filter
      (fun r => r.account_id =
        ({ account_id := "A", estimated_balance := 0,
           related_transactions := ["sigGood"] } : AccountRecord).account_id) =
      [{ account_id := "A", estimated_balance := 0,
         related_transactions := ["sigGood"] }] :=
  ⟨(two_account_writes_per_transfer envHappy 5 (some 1720421680)).1
     [("sigGood", exTransferTx,
       some { sender := "A", receiver := "B", amount := 967,
              timestamp := some 1720421680 })]
     SweepState.init _ rfl,
   (two_account_writes_per_transfer envHappy 5 (some 1720421680)).2
     { transactions := [],
       accounts := [{ account_id := "A",
                      estimated_balance := 7,
                      related_transactions := ["older"] }] }
     { account_id := "A", estimated_balance := 0,
       related_transactions := ["sigGood"] }⟩

end SolanaAggregator
